import Mathlib

/-!
Verification development for the waifu-voice audio visualizer.

The source (src/main.js) renders a still image distorted by the live
frequency spectrum of a playing audio track and can capture the rendering
into a downloadable MP4.  This file gives a shallow embedding of the parts
of the program the specification's claims are about:

* the export/transcode lifecycle (the `exportVideo` function and the
  `mediaRecorder.onstop` handler), embedded as explicit state-transition
  functions on an `AppState` record mirroring the script's module-level
  mutable variables;
* the fragment shader `fsSource` (audio-influence warp and tint),
  embedded as real-valued functions;
* the waveform overlay `drawWaveform`, embedded over the rationals, with
  JavaScript's out-of-range typed-array indexing (which yields `undefined`
  and hence `NaN` downstream) made explicit through `Option`;
* the audio-source graph manipulation of `createAudioSource` and of the
  export path.
-/

/-- State of a `MediaRecorder` as far as the script observes it
(`mediaRecorder.state` is compared against the string "recording" in
`exportSource.onended`). -/
inductive RecorderState
  | inactive
  | recording
deriving DecidableEq

/-- Error vocabulary of the specification's taxonomy (spec section 7).
The source itself never constructs distinguished error objects: it only
surfaces generic `alert` messages.  Failures raised inside `exportVideo`'s
`try` block are modelled as `setupFailed`; failures surfaced by the
`onstop` conversion pipeline as `conversionFailed`.  The remaining
constructors exist so that claims phrased in the specification's
vocabulary can be stated (and, where the code never produces them,
refuted). -/
inductive ExportErrorKind
  | noAudioLoaded
  | alreadyRecording
  | tooSmall
  | conversionFailed
  | setupFailed
deriving DecidableEq

/-- Result of one call to `exportVideo` as the caller observes it:
silently ignored (the `if (isExporting) return;` guard), successfully
started, or aborted by the `catch` block. -/
inductive ExportOutcome
  | ignored
  | started
  | failed (k : ExportErrorKind)
deriving DecidableEq

/-- The module-level mutable variables of src/main.js that the export
pipeline reads or writes, plus the observable UI surface (button text,
disabled flag, alerts) and a counter of `new FFmpeg()` instantiations.
Chunks are byte lists; `audioCtx` records whether `audioContext` has been
initialized (it is created the first time an audio file is loaded);
`audioLoaded` records whether `audioBuffer` is non-null. -/
structure AppState where
  audioLoaded : Bool
  audioCtx : Bool
  isPlaying : Bool
  isExporting : Bool
  exportBtnDisabled : Bool
  exportBtnText : String
  hasMediaRecorder : Bool
  recState : RecorderState
  recordedChunks : List (List Nat)
  alerts : List String
  enginesCreated : Nat
deriving DecidableEq

/-- Button label set at the start of `exportVideo` (line 469). -/
def recordingText : String := "Recording..."

/-- Button label set at the start of the `onstop` handler (line 37). -/
def convertingText : String := "Converting..."

/-- Idle button label, restored at the end of both handlers. -/
def idleText : String := "Export MP4"

/-- Alert message of `exportVideo`'s catch block (line 498); the source
appends the platform error text, which is not modelled. -/
def setupFailedMsg : String := "Export setup failed. Please try again."

/-- Alert message of the outer catch of `onstop` (line 106); the source
appends the platform error text, which is not modelled. -/
def exportFailedMsg : String := "Export failed. Please try again."

/-- Console warning of the cleanup catch in `onstop`'s `finally`
(line 99). -/
def cleanupWarnMsg : String := "Cleanup failed"

/-- The `ondataavailable` handler (lines 30-34): a chunk is appended to
`recordedChunks` only when its size is positive, in arrival order. -/
def pushChunk (s : AppState) (c : List Nat) : AppState :=
  if 0 < c.length then { s with recordedChunks := s.recordedChunks ++ [c] } else s

/-- The `catch` block of `exportVideo` (lines 496-502): alert, restore
the idle label, re-enable the button, clear the in-progress flag. -/
def exportVideoCatch (s : AppState) : AppState :=
  { s with alerts := s.alerts ++ [setupFailedMsg],
           exportBtnText := idleText,
           exportBtnDisabled := false,
           isExporting := false }

/-- The `exportVideo` function (lines 463-503), embedded as a transition
on `AppState` together with the outcome the caller observes.

Control flow of the source, in order: the `if (isExporting) return;`
guard; setting `isExporting`, disabling the button, the "Recording..."
label; `setupRecorder()` when `mediaRecorder` does not exist yet (this
instantiates the capture recorder, initially inactive); clearing
`recordedChunks`; `mediaRecorder.start(1000)`, which throws an
`InvalidStateError` if the recorder is already recording;
`audioContext.createBufferSource()`, which throws a `TypeError` when
`audioContext` is undefined (no audio file was ever loaded).  Any throw
lands in the catch block.  On the success path the export source is
connected and started and `draw()` is invoked; no audio-loaded check of
any kind is performed, and no transcoding engine is touched here. -/
def exportVideoRun (s : AppState) : AppState × ExportOutcome :=
  if s.isExporting then (s, .ignored)
  else
    let s1 := { s with isExporting := true,
                       exportBtnDisabled := true,
                       exportBtnText := recordingText }
    let s2 := if s1.hasMediaRecorder then s1
              else { s1 with hasMediaRecorder := true, recState := .inactive }
    let s3 := { s2 with recordedChunks := [] }
    if s3.recState = .recording then
      (exportVideoCatch s3, .failed .setupFailed)
    else
      let s4 := { s3 with recState := .recording }
      if s4.audioCtx then (s4, .started)
      else (exportVideoCatch s4, .failed .setupFailed)

/-- Point at which the `onstop` conversion pipeline fails, if any.
`loadFail` covers `ffmpeg.load` (and the `-version` probe) throwing:
the inner try/finally is then never entered, so no cleanup or terminate
happens.  `writeFail`, `execFail` and `readFail` are throws of
`ffmpeg.writeFile`, the conversion `ffmpeg.exec`, and `ffmpeg.readFile`
respectively; each lands in the inner catch (which rethrows) after which
the `finally` block runs cleanup and `terminate`. -/
inductive ConvResult
  | success
  | loadFail
  | writeFail
  | execFail
  | readFail
deriving DecidableEq

/-- Behaviour of the external transcoding engine during one `onstop`
run: where the conversion fails (if anywhere), whether the cleanup
`deleteFile` calls fail, whether `terminate` throws, the output bytes of
a successful conversion, and the progress events the engine emits.  The
source registers no progress listener, so `progressEvents` is never read
by `onstop`. -/
structure StopRun where
  conv : ConvResult
  deleteFails : Bool
  terminateFails : Bool
  output : List Nat
  progressEvents : List Nat
deriving DecidableEq

/-- Calls that `onstop` issued to the transcoding engine: `writeFile`
invocations (name and bytes handed over, including a call that threw),
`exec` argument lists, `readFile` names, whether the cleanup deletes were
attempted, and whether `terminate` completed. -/
structure EngineLog where
  writes : List (String × List Nat)
  execs : List (List String)
  reads : List String
  deletesAttempted : Bool
  terminated : Bool
deriving DecidableEq

/-- A triggered download: suggested filename, MIME type, bytes. -/
abbrev Download := String × String × List Nat

/-- Everything observable about one run of the `onstop` handler: the
final mutable state, the engine interaction log, the successive values
assigned to the export button label (in assignment order), the downloads
triggered, the console warnings, and the failure kind surfaced to the
user (if any). -/
structure OnstopResult where
  state : AppState
  log : EngineLog
  statusTrace : List String
  downloads : List Download
  warnings : List String
  failure : Option ExportErrorKind
deriving DecidableEq

/-- Argument list of the `-version` probe `exec` (line 53). -/
def verArgs : List String := ["-version"]

/-- Argument list of the conversion `exec` (lines 66-72). -/
def convArgs : List String :=
  ["-i", "input.webm", "-c:v", "libx264", "-preset", "fast", "-crf", "22", "output.mp4"]

/-- Unconditional tail of the `onstop` handler (lines 109-112), with the
alert of the outer catch (line 106) prepended when a failure reached it:
clear the chunk list, restore the idle label, re-enable the button,
clear the in-progress flag. -/
def onstopFinish (s : AppState) (errored : Bool) : AppState :=
  let s1 := if errored then { s with alerts := s.alerts ++ [exportFailedMsg] } else s
  { s1 with recordedChunks := [],
            exportBtnText := idleText,
            exportBtnDisabled := false,
            isExporting := false }

/-- The `mediaRecorder.onstop` handler (lines 36-113), embedded as a
function of the current state and of the engine's behaviour.

Control flow of the source: set the "Converting..." label; assemble the
chunks into one blob (`new Blob(recordedChunks)` concatenates the chunk
bytes in list order); instantiate `new FFmpeg()` and `load` it (a throw
goes straight to the outer catch — note `terminate` is never reached in
that case); probe with `exec ['-version']`; inner try: `writeFile` of the
assembled bytes, the conversion `exec`, `readFile` of the output, then
the download of `visualization.mp4` with MIME `video/mp4`; inner catch
rethrows; `finally` attempts the two `deleteFile`s (a failure only warns)
and then `terminate` (whose own throw propagates to the outer catch, even
after a successful conversion).  The outer catch alerts.  The tail
(lines 109-112) always runs.  No minimum-size check of the assembled blob
exists, and no progress listener is ever registered on the engine. -/
def onstop (s : AppState) (r : StopRun) : OnstopResult :=
  let sConv := { s with exportBtnText := convertingText,
                        enginesCreated := s.enginesCreated + 1 }
  let blob : List Nat := sConv.recordedChunks.flatten
  let warn : List String := if r.deleteFails then [cleanupWarnMsg] else []
  match r.conv with
  | .loadFail =>
      { state := onstopFinish sConv true,
        log := ⟨[], [], [], false, false⟩,
        statusTrace := [convertingText, idleText],
        downloads := [],
        warnings := [],
        failure := some .conversionFailed }
  | .writeFail =>
      { state := onstopFinish sConv true,
        log := ⟨[("input.webm", blob)], [verArgs], [], true, !r.terminateFails⟩,
        statusTrace := [convertingText, idleText],
        downloads := [],
        warnings := warn,
        failure := some .conversionFailed }
  | .execFail =>
      { state := onstopFinish sConv true,
        log := ⟨[("input.webm", blob)], [verArgs, convArgs], [], true, !r.terminateFails⟩,
        statusTrace := [convertingText, idleText],
        downloads := [],
        warnings := warn,
        failure := some .conversionFailed }
  | .readFail =>
      { state := onstopFinish sConv true,
        log := ⟨[("input.webm", blob)], [verArgs, convArgs], ["output.mp4"], true, !r.terminateFails⟩,
        statusTrace := [convertingText, idleText],
        downloads := [],
        warnings := warn,
        failure := some .conversionFailed }
  | .success =>
      { state := onstopFinish sConv r.terminateFails,
        log := ⟨[("input.webm", blob)], [verArgs, convArgs], ["output.mp4"], true, !r.terminateFails⟩,
        statusTrace := [convertingText, idleText],
        downloads := [("visualization.mp4", "video/mp4", r.output)],
        warnings := warn,
        failure := if r.terminateFails then some .conversionFailed else none }

/-- The state of a freshly loaded page: nothing loaded, export button
present but disabled (the HTML declares it `disabled`), idle label. -/
def initState : AppState :=
  { audioLoaded := false, audioCtx := false, isPlaying := false,
    isExporting := false, exportBtnDisabled := true, exportBtnText := idleText,
    hasMediaRecorder := false, recState := .inactive, recordedChunks := [],
    alerts := [], enginesCreated := 0 }

/-! ## Waveform overlay (`drawWaveform`, lines 272-355)

The overlay is plain 2D-canvas arithmetic, embedded over the rationals.
JavaScript's typed-array indexing returns `undefined` out of range, and
`undefined / 255.0` is `NaN`, which then propagates through every further
arithmetic operation; this is modelled by `Option`, with `none` standing
for the `NaN`/undefined outcome. -/

/-- The fixed section count of the overlay (line 287). -/
def numSections : Nat := 40

/-- Height of one section, `height / numSections` (line 288). -/
def sectionHeight (height : ℚ) : ℚ := height / numSections

/-- The `x` of loop iteration `i`: `i * sectionHeight` (line 299). -/
def sectionX (height : ℚ) (i : Nat) : ℚ := i * sectionHeight height

/-- The nearest-index lookup `Math.floor((i / numSections) * dataArray.length)`
(line 301). -/
def dataIndex (i len : Nat) : ℤ := ⌊((i : ℚ) / numSections) * len⌋

/-- Typed-array indexing: `a[idx]` on a `Uint8Array` yields the element in
range and `undefined` (here `none`) out of range, including negative
indices. -/
def uint8Get (a : List Nat) (idx : ℤ) : Option Nat :=
  if idx < 0 then none else a.get? idx.toNat

/-- The normalized magnitude `dataArray[dataIndex] / 255.0` (line 302);
`none` when the lookup was out of range (`undefined / 255.0` is `NaN`). -/
def audioValue (a : List Nat) (i : Nat) : Option ℚ :=
  (uint8Get a (dataIndex i a.length)).map (fun v => (v : ℚ) / 255)

/-- The taper `1 - Math.abs(x / width - 0.5) * 2` (line 304).  Note the
normalization is by `width` although `x` ranges over `[0, height]`. -/
def verticalFactor (width height : ℚ) (i : Nat) : ℚ :=
  1 - |sectionX height i / width - 0.5| * 2

/-- The displacement `width * 0.25 * audioValue * verticalFactor`
(line 305); `none` when the magnitude lookup was `NaN`. -/
def waveAmplitude (a : List Nat) (width height : ℚ) (i : Nat) : Option ℚ :=
  (audioValue a i).map (fun v => width * 0.25 * v * verticalFactor width height i)

/-- The left-curve ordinate `centerY - amplitude` (line 307). -/
def leftY (a : List Nat) (width height : ℚ) (i : Nat) : Option ℚ :=
  (waveAmplitude a width height i).map (fun amp => height / 2 - amp)

/-- The right-curve ordinate `centerY + amplitude` (line 308). -/
def rightY (a : List Nat) (width height : ℚ) (i : Nat) : Option ℚ :=
  (waveAmplitude a width height i).map (fun amp => height / 2 + amp)

/-- The all-zero spectrum snapshot handed to `drawWaveform`: the analyser
is configured with `fftSize = 128`, so `frequencyBinCount` is 64. -/
def zeroBytes : List Nat := List.replicate 64 0

/-! ## Fragment shader (`fsSource`, lines 141-171)

The shader body is straight-line float arithmetic; it is embedded over the
reals.  A texture is modelled as a function from coordinates to an RGB
triple (the alpha channel is untouched by the shader). -/

/-- GLSL `clamp(x, lo, hi)`. -/
noncomputable def glslClamp (x lo hi : ℝ) : ℝ := min (max x lo) hi

/-- GLSL `smoothstep(e0, e1, x)`: Hermite interpolation of the clamped
normalized position. -/
noncomputable def smoothstep (e0 e1 x : ℝ) : ℝ :=
  let t := glslClamp ((x - e0) / (e1 - e0)) 0 1
  t * t * (3 - 2 * t)

/-- The `audioInfluence` accumulation loop of the shader (lines 150-158):
for each of the 64 bins, the magnitude is scaled by 0.3 and by a smooth
falloff of the distance between the bin's zone `i / 64` and the flipped
vertical coordinate `1 - vTextureCoord.y`. -/
noncomputable def audioInfluence (uAudioData : Fin 64 → ℝ) (texY : ℝ) : ℝ :=
  ∑ i : Fin 64,
    uAudioData i * 0.3 * (1 - smoothstep 0 0.1 |((i : ℕ) : ℝ) / 64 - (1 - texY)|)

/-- The `wave` term `sin(vTextureCoord.x * 30.0 + audioInfluence * 5.0) * 0.005`
(line 161). -/
noncomputable def waveTerm (uAudioData : Fin 64 → ℝ) (texX texY : ℝ) : ℝ :=
  Real.sin (texX * 30 + audioInfluence uAudioData texY * 5) * 0.005

/-- The distorted sampling coordinate (lines 160-163): the `x` component
is copied unchanged; `wave * audioInfluence` is subtracted from the `y`
component. -/
noncomputable def distortedCoord (uAudioData : Fin 64 → ℝ) (texX texY : ℝ) : ℝ × ℝ :=
  (texX, texY - waveTerm uAudioData texX texY * audioInfluence uAudioData texY)

/-- The final fragment color (lines 165-169): the texture sampled at the
distorted coordinate, plus the accent hue `vec3(0.2, 0.4, 1.0)` scaled by
`glow = audioInfluence * 0.5`. -/
noncomputable def shadedColor (tex : ℝ × ℝ → ℝ × ℝ × ℝ) (uAudioData : Fin 64 → ℝ)
    (texX texY : ℝ) : ℝ × ℝ × ℝ :=
  let c := tex (distortedCoord uAudioData texX texY)
  let glow := audioInfluence uAudioData texY * 0.5
  (c.1 + 0.2 * glow, c.2.1 + 0.4 * glow, c.2.2 + 1.0 * glow)

/-- The all-zero spectrum snapshot as shader uniform data. -/
def zeroData : Fin 64 → ℝ := fun _ => 0

/-! ## Audio-source graph (`createAudioSource`, lines 385-402, and the
export path of `exportVideo`, lines 478-485)

Only the source-node topology matters to the claims: which buffer-source
nodes are currently connected into the graph, and which one the
module-level variable `source` refers to.  Nodes are numbered in creation
order. -/

/-- Connection state of the audio graph: the ids of the buffer-source
nodes currently connected (to the analyser, and through it to the
destination), the id the next `createBufferSource()` call will get, and
the id held by the module-level `source` variable. -/
structure AudioGraph where
  connected : List Nat
  nextId : Nat
  current : Option Nat
deriving DecidableEq

/-- The `createAudioSource` function (lines 385-402), used by the play
control: if `source` is set, the prior node is stopped and disconnected;
then a fresh node is created, connected, and stored in `source`. -/
def createAudioSource (g : AudioGraph) : AudioGraph :=
  let g1 :=
    match g.current with
    | some s => { g with connected := g.connected.erase s }
    | none => g
  { connected := g1.connected ++ [g1.nextId],
    nextId := g1.nextId + 1,
    current := some g1.nextId }

/-- The export path of `exportVideo` (lines 478-485): a fresh
`exportSource` node is created, connected and started, WITHOUT stopping
or disconnecting any prior node, and without updating the module-level
`source` variable (the node stays local to `exportVideo`). -/
def exportVideoConnectSource (g : AudioGraph) : AudioGraph :=
  { g with connected := g.connected ++ [g.nextId], nextId := g.nextId + 1 }

/-- At most one source node is connected, and any connected node is the
one tracked by `source`. -/
def graphInv (g : AudioGraph) : Prop :=
  g.connected.length ≤ 1 ∧ ∀ s ∈ g.connected, g.current = some s

instance (g : AudioGraph) : Decidable (graphInv g) := by
  unfold graphInv; infer_instance

/-! ## Helper lemmas -/

/-- The nearest-index lookup never goes negative. -/
lemma dataIndex_nonneg (i len : ℕ) : 0 ≤ dataIndex i len := by
  apply Int.floor_nonneg.mpr
  positivity

/-- For a nonempty snapshot and a section index strictly below the
section count, the nearest-index lookup stays below the length. -/
lemma dataIndex_lt (i len : ℕ) (hlen : 1 ≤ len) (hi : i < numSections) :
    dataIndex i len < len := by
  rw [dataIndex, Int.floor_lt]
  push_cast
  have h40 : (0 : ℚ) < (numSections : ℕ) := by norm_num [numSections]
  have h1 : (i : ℚ) / (numSections : ℕ) < 1 := by
    rw [div_lt_one h40]
    exact_mod_cast hi
  calc (i : ℚ) / (numSections : ℕ) * len < 1 * len := by
        apply mul_lt_mul_of_pos_right h1
        exact_mod_cast Nat.pos_of_ne_zero (by omega)
    _ = len := one_mul _

/-- At the loop's final index the lookup equals the snapshot length. -/
lemma dataIndex_numSections (len : ℕ) : dataIndex numSections len = len := by
  rw [dataIndex, div_self (by norm_num [numSections] : ((numSections : ℕ) : ℚ) ≠ 0),
     one_mul, Int.floor_natCast]

/-- Typed-array indexing at or past the length yields `undefined`. -/
lemma uint8Get_oob (a : List Nat) (idx : ℤ) (h : (a.length : ℤ) ≤ idx) :
    uint8Get a idx = none := by
  rw [uint8Get]
  split
  · rfl
  · rw [List.get?_eq_getElem?]
    apply List.getElem?_eq_none
    omega

/-- On the all-zero snapshot, every in-range section magnitude is 0. -/
lemma audioValue_zeroBytes (i : ℕ) (hi : i < numSections) :
    audioValue zeroBytes i = some 0 := by
  have h64 : zeroBytes.length = 64 := by simp [zeroBytes]
  rw [audioValue, h64]
  have hnn := dataIndex_nonneg i 64
  have hlt := dataIndex_lt i 64 (by norm_num) hi
  rw [uint8Get, if_neg (by omega), zeroBytes, List.get?_eq_getElem?,
     List.getElem?_replicate, if_pos (by omega)]
  simp

/-- With the all-zero uniform array the influence loop sums to 0. -/
lemma audioInfluence_zeroData (y : ℝ) : audioInfluence zeroData y = 0 := by
  simp [audioInfluence, zeroData]

/-- In the square case the taper is a function of `i / numSections`
alone. -/
lemma verticalFactor_square (w : ℚ) (hw : w ≠ 0) (j : ℕ) :
    verticalFactor w w j = 1 - |(j : ℚ) / (numSections : ℕ) - 1/2| * 2 := by
  have h40 : ((numSections : ℕ) : ℚ) ≠ 0 := by norm_num [numSections]
  have harg : (j : ℚ) * (w / (numSections : ℕ)) / w - 0.5
      = (j : ℚ) / (numSections : ℕ) - 1/2 := by
    field_simp
    ring
  rw [verticalFactor, sectionX, sectionHeight, harg]

/-! ## Claim C4: all-zero snapshot reproduces the undistorted frame -/

/-- A sample (noncomputable) texture used to instantiate witnesses. -/
noncomputable def probeTex : ℝ × ℝ → ℝ × ℝ × ℝ := fun c => (c.1, c.2, c.1 * c.2)

/-- C4: with an all-zero spectrum snapshot the shader reproduces the
undistorted base image — the aggregate influence is 0, the distorted
sampling coordinate equals the original coordinate, the additive tint
term vanishes — and the waveform overlay is flat: at every section the
displacement is zero and both curve ordinates sit on the vertical center
line, for every frame size.  (Sections are indexed `0 ≤ i < numSections`;
the loop's extra boundary iteration at `i = numSections` reads out of
range and contributes no drawn point — that boundary read is settled
under claim C7.) -/
theorem zero_snapshot_undistorted (tex : ℝ × ℝ → ℝ × ℝ × ℝ) (x y : ℝ)
    (w h : ℚ) (i : ℕ) (hi : i < numSections) :
    audioInfluence zeroData y = 0 ∧
    distortedCoord zeroData x y = (x, y) ∧
    shadedColor tex zeroData x y = tex (x, y) ∧
    waveAmplitude zeroBytes w h i = some 0 ∧
    leftY zeroBytes w h i = some (h / 2) ∧
    rightY zeroBytes w h i = some (h / 2) := by
  have h0 := audioInfluence_zeroData y
  have hd : distortedCoord zeroData x y = (x, y) := by
    simp [distortedCoord, h0]
  have hv := audioValue_zeroBytes i hi
  refine ⟨h0, hd, ?_, ?_, ?_, ?_⟩
  · simp [shadedColor, hd, h0]
  · simp [waveAmplitude, hv]
  · simp [leftY, waveAmplitude, hv]
  · simp [rightY, waveAmplitude, hv]

/-- Witness for C4 at a concrete texture, coordinate, frame size and
section. -/
theorem zero_snapshot_undistorted_witness :
    2 < numSections ∧
    (audioInfluence zeroData 0.5 = 0 ∧
     distortedCoord zeroData 0.25 0.5 = (0.25, 0.5) ∧
     shadedColor probeTex zeroData 0.25 0.5 = probeTex (0.25, 0.5) ∧
     waveAmplitude zeroBytes 800 600 2 = some 0 ∧
     leftY zeroBytes 800 600 2 = some (600 / 2) ∧
     rightY zeroBytes 800 600 2 = some (600 / 2)) :=
  ⟨by norm_num [numSections],
   zero_snapshot_undistorted probeTex 0.25 0.5 800 600 2 (by norm_num [numSections])⟩

/-! ## Concrete states and engine runs used by the lifecycle claims -/

/-- A state reachable when audio decoding failed after the audio context
was created (`loadAudioFile` creates `audioContext` before
`decodeAudioData`): `audioContext` exists, `audioBuffer` is still null,
the export button is still disabled. -/
def decodeFailedState : AppState := { initState with audioCtx := true }

/-- A state in the middle of a first export job: recording in progress,
two chunks already appended. -/
def activeExportState : AppState :=
  { audioLoaded := true, audioCtx := true, isPlaying := false,
    isExporting := true, exportBtnDisabled := true,
    exportBtnText := recordingText, hasMediaRecorder := true,
    recState := .recording, recordedChunks := [[1, 2], [3]],
    alerts := [], enginesCreated := 0 }

/-- A recording session that sealed with zero appended chunks. -/
def emptySessionState : AppState := { activeExportState with recordedChunks := [] }

/-- A state with audio loaded and decoded, ready to export. -/
def readyState : AppState :=
  { initState with audioLoaded := true, audioCtx := true, exportBtnDisabled := false }

/-- An engine run in which the conversion `exec` fails. -/
def execFailRun : StopRun :=
  { conv := .execFail, deleteFails := false, terminateFails := false,
    output := [], progressEvents := [] }

/-- A successful engine run producing a two-byte artifact. -/
def successRun : StopRun :=
  { conv := .success, deleteFails := false, terminateFails := false,
    output := [7, 7], progressEvents := [] }

/-- A successful engine run that emits progress events 0, 50, 100. -/
def progressRun : StopRun :=
  { conv := .success, deleteFails := false, terminateFails := false,
    output := [1], progressEvents := [0, 50, 100] }

/-! ## Claim C1: export with no decoded audio -/

/-- C1 counterexample: in the reachable state where no audio asset is
decoded but the audio context exists (a failed decode), `exportVideo`
does not fail at all — the export starts, and the capture recorder is
instantiated and recording.  No `NoAudioLoadedError` is produced. -/
theorem export_no_audio_counterexample :
    decodeFailedState.audioLoaded = false ∧
    (exportVideoRun decodeFailedState).2 = .started ∧
    (exportVideoRun decodeFailedState).2 ≠ .failed .noAudioLoaded ∧
    (exportVideoRun decodeFailedState).1.hasMediaRecorder = true ∧
    (exportVideoRun decodeFailedState).1.recState = .recording := by
  decide

/-- C1 amended: `exportVideo` performs no audio-loaded check.  Invoked
with no decoded audio it always instantiates the capture recorder; when
the audio context exists it starts outright, and only when the context
is missing does it abort — with the generic setup-failure alert, never a
`NoAudioLoadedError` — re-enabling the export control.  No transcoding
engine is instantiated on this path either way.  (The UI guards the
scenario only by keeping the export button disabled until audio
loads.) -/
theorem export_no_audio_amended (s : AppState) (h1 : s.isExporting = false)
    (h2 : s.audioLoaded = false) (h3 : s.recState ≠ .recording) :
    ((exportVideoRun s).2
       = if s.audioCtx then .started else .failed .setupFailed) ∧
    (exportVideoRun s).2 ≠ .failed .noAudioLoaded ∧
    (exportVideoRun s).1.hasMediaRecorder = true ∧
    (exportVideoRun s).1.enginesCreated = s.enginesCreated ∧
    (s.audioCtx = false →
      (exportVideoRun s).1.exportBtnDisabled = false ∧
      (exportVideoRun s).1.isExporting = false ∧
      (exportVideoRun s).1.alerts = s.alerts ++ [setupFailedMsg]) := by
  obtain ⟨al, ac, ip, ie, bd, bt, mr, rs, ch, als, ec⟩ := s
  simp only at h1 h2 h3 ⊢
  subst h1 h2
  cases mr <;> cases ac <;> cases rs <;>
    simp_all [exportVideoRun, exportVideoCatch]

/-- Witness for C1 at the fresh-page state. -/
theorem export_no_audio_witness :
    initState.isExporting = false ∧ initState.audioLoaded = false ∧
    initState.recState ≠ .recording ∧
    (((exportVideoRun initState).2
        = if initState.audioCtx then ExportOutcome.started
          else .failed .setupFailed) ∧
     (exportVideoRun initState).2 ≠ .failed .noAudioLoaded ∧
     (exportVideoRun initState).1.hasMediaRecorder = true ∧
     (exportVideoRun initState).1.enginesCreated = initState.enginesCreated ∧
     (initState.audioCtx = false →
       (exportVideoRun initState).1.exportBtnDisabled = false ∧
       (exportVideoRun initState).1.isExporting = false ∧
       (exportVideoRun initState).1.alerts = initState.alerts ++ [setupFailedMsg])) :=
  ⟨rfl, rfl, by decide, export_no_audio_amended initState rfl rfl (by decide)⟩

/-! ## Claim C2: finalizing a too-small (empty) session -/

/-- C2 counterexample: finalizing the session with zero appended chunks
hands the empty assembled byte sequence to the transcoding engine via
`writeFile`, and when the engine then fails the surfaced failure is the
generic conversion failure — there is no `TooSmallError` and no
minimum-size guard. -/
theorem finalize_empty_counterexample :
    emptySessionState.recordedChunks = [] ∧
    (onstop emptySessionState execFailRun).log.writes = [("input.webm", [])] ∧
    (onstop emptySessionState execFailRun).failure = some .conversionFailed ∧
    (onstop emptySessionState execFailRun).failure ≠ some .tooSmall := by
  decide

/-- C2 amended: the `onstop` finalization performs no minimum-size
check: whatever chunks exist (in particular none) are concatenated and
the bytes are handed to the transcoding engine, a fresh engine having
been instantiated; no `TooSmallError` can be surfaced, and whether a
(possibly unusable) artifact is produced is decided solely by the
engine:  on engine success the artifact is downloaded even for an empty
session. -/
theorem finalize_empty_amended (s : AppState) (r : StopRun)
    (h1 : s.recordedChunks = []) (h2 : r.conv ≠ .loadFail) :
    (onstop s r).log.writes = [("input.webm", [])] ∧
    (onstop s r).failure ≠ some .tooSmall ∧
    (onstop s r).state.enginesCreated = s.enginesCreated + 1 ∧
    (r.conv = .success →
      (onstop s r).downloads = [("visualization.mp4", "video/mp4", r.output)]) := by
  rcases r with ⟨conv, df, tf, out, pe⟩
  cases conv <;> cases tf <;> simp_all [onstop, onstopFinish]

/-- Witness for C2 at the empty session and a compliant engine. -/
theorem finalize_empty_witness :
    emptySessionState.recordedChunks = [] ∧ successRun.conv ≠ .loadFail ∧
    ((onstop emptySessionState successRun).log.writes = [("input.webm", [])] ∧
     (onstop emptySessionState successRun).failure ≠ some .tooSmall ∧
     (onstop emptySessionState successRun).state.enginesCreated
       = emptySessionState.enginesCreated + 1 ∧
     (successRun.conv = .success →
       (onstop emptySessionState successRun).downloads
         = [("visualization.mp4", "video/mp4", successRun.output)])) :=
  ⟨rfl, by decide, finalize_empty_amended emptySessionState successRun rfl (by decide)⟩

/-! ## Claim C3: a second export while one is active -/

/-- C3 counterexample: with the first export active (recording, two
chunks appended), a second `exportVideo` call is silently dropped: the
whole state — chunk sequence, status and lifecycle included — is
returned unchanged, the outcome is `ignored`, and in particular no
failure with `AlreadyRecordingError` is raised. -/
theorem second_export_counterexample :
    activeExportState.isExporting = true ∧
    exportVideoRun activeExportState = (activeExportState, .ignored) ∧
    (exportVideoRun activeExportState).2 ≠ .failed .alreadyRecording := by
  exact ⟨rfl, rfl, by decide⟩

/-- C3 amended: a second export request while one is active (the
`isExporting` flag spans both the recording and the conversion phase) is
silently ignored: `exportVideo` returns immediately, leaving the entire
state — the first job's chunk sequence, status and lifecycle included —
unchanged; the request is not queued, and no error of any kind (in
particular no `AlreadyRecordingError`) is surfaced. -/
theorem second_export_amended (s : AppState) (h : s.isExporting = true) :
    exportVideoRun s = (s, .ignored) := by
  simp [exportVideoRun, h]

/-- Witness for C3 at the concrete active-export state. -/
theorem second_export_witness :
    activeExportState.isExporting = true ∧
    exportVideoRun activeExportState = (activeExportState, .ignored) :=
  ⟨rfl, second_export_amended activeExportState rfl⟩

/-! ## Claim C8: the status surface -/

/-- C8 counterexample: during a successful conversion in which the
engine emits progress events 0, 50 and 100, the label sequence is
"Converting..." followed by "Export MP4" — the claimed percentage form
"Converting: N%" never appears, because the source registers no progress
listener on the engine. -/
theorem status_surface_counterexample :
    (onstop activeExportState progressRun).statusTrace = [convertingText, idleText] ∧
    "Converting: 50%" ∉ (onstop activeExportState progressRun).statusTrace ∧
    convertingText ≠ "Converting: 50%" := by
  decide

/-- C8 amended: the status surface exposes "Recording..." while
capturing, a static "Converting..." during conversion — with no
percentage, since the engine's progress events are never subscribed and
the label sequence is independent of them — and "Export MP4" when the
job finishes or aborts. -/
theorem status_surface_amended (s s2 : AppState) (r : StopRun)
    (h : s2.isExporting = false) :
    (onstop s r).statusTrace = [convertingText, idleText] ∧
    (onstop s r).statusTrace
      = (onstop s { r with progressEvents := [] }).statusTrace ∧
    (onstop s r).state.exportBtnText = idleText ∧
    ((exportVideoRun s2).2 = .started →
      (exportVideoRun s2).1.exportBtnText = recordingText) := by
  refine ⟨?_, ?_, ?_, ?_⟩
  · rcases r with ⟨conv, df, tf, out, pe⟩
    cases conv <;> rfl
  · rcases r with ⟨conv, df, tf, out, pe⟩
    cases conv <;> rfl
  · rcases r with ⟨conv, df, tf, out, pe⟩
    cases conv <;> simp [onstop, onstopFinish]
  · intro hst
    obtain ⟨al, ac, ip, ie, bd, bt, mr, rs, ch, als, ec⟩ := s2
    simp only at h hst ⊢
    subst h
    cases mr <;> cases ac <;> cases rs <;>
      simp_all [exportVideoRun, exportVideoCatch]

/-- Witness for C8 at the active-export state, the progress-emitting
engine run, and the ready-to-export state. -/
theorem status_surface_witness :
    readyState.isExporting = false ∧
    ((onstop activeExportState progressRun).statusTrace = [convertingText, idleText] ∧
     (onstop activeExportState progressRun).statusTrace
       = (onstop activeExportState { progressRun with progressEvents := [] }).statusTrace ∧
     (onstop activeExportState progressRun).state.exportBtnText = idleText ∧
     ((exportVideoRun readyState).2 = .started →
       (exportVideoRun readyState).1.exportBtnText = recordingText)) :=
  ⟨rfl, status_surface_amended activeExportState readyState progressRun rfl⟩

/-! ## Claim C10: every failure path re-enables the export control -/

/-- C10: for every engine behaviour — load, write, conversion, read,
cleanup or terminate failure, as well as success — the tail of the
`onstop` handler leaves the export control enabled, the in-progress flag
cleared and the idle label restored; and every failure outcome of
`exportVideo` itself does the same through its catch block.  No failure
path leaves the control permanently disabled or the job permanently in
progress. -/
theorem export_always_reenabled (s s2 : AppState) (r : StopRun) :
    ((onstop s r).state.exportBtnDisabled = false ∧
     (onstop s r).state.isExporting = false ∧
     (onstop s r).state.exportBtnText = idleText) ∧
    (∀ k, (exportVideoRun s2).2 = .failed k →
      (exportVideoRun s2).1.exportBtnDisabled = false ∧
      (exportVideoRun s2).1.isExporting = false ∧
      (exportVideoRun s2).1.exportBtnText = idleText) := by
  constructor
  · rcases r with ⟨conv, df, tf, out, pe⟩
    cases conv <;> simp [onstop, onstopFinish]
  · intro k hk
    obtain ⟨al, ac, ip, ie, bd, bt, mr, rs, ch, als, ec⟩ := s2
    cases ie
    · cases mr <;> cases ac <;> cases rs <;>
        simp_all [exportVideoRun, exportVideoCatch]
    · simp [exportVideoRun] at hk

/-- Witness for C10 at concrete states and a failing engine run. -/
theorem export_always_reenabled_witness :
    ((onstop activeExportState execFailRun).state.exportBtnDisabled = false ∧
     (onstop activeExportState execFailRun).state.isExporting = false ∧
     (onstop activeExportState execFailRun).state.exportBtnText = idleText) ∧
    (∀ k, (exportVideoRun initState).2 = .failed k →
      (exportVideoRun initState).1.exportBtnDisabled = false ∧
      (exportVideoRun initState).1.isExporting = false ∧
      (exportVideoRun initState).1.exportBtnText = idleText) :=
  export_always_reenabled activeExportState initState execFailRun

/-! ## Claim C9: exclusivity of the playback stream -/

/-- The graph of an idle page: nothing connected, no current source. -/
def idleGraph : AudioGraph := ⟨[], 0, none⟩

/-- A graph with one playing source, tracked by `source`. -/
def playingGraph : AudioGraph := ⟨[5], 6, some 5⟩

/-- C9 counterexample: start playback on an idle graph (one source
connected), then start an export: the export path connects a second
source without stopping or disconnecting the first, so two sources are
connected to the output simultaneously — refuting "at most one audio
source is ever connected". -/
theorem playback_stream_counterexample :
    (createAudioSource idleGraph).connected = [0] ∧
    (exportVideoConnectSource (createAudioSource idleGraph)).connected = [0, 1] ∧
    ¬ (exportVideoConnectSource (createAudioSource idleGraph)).connected.length ≤ 1 := by
  decide

/-- C9 amended: the play control's `createAudioSource` does stop and
disconnect the prior stream before connecting the new one — it preserves
the at-most-one-connected-source invariant — but the export path of
`exportVideo` connects an additional source while leaving any prior one
connected and while not updating the tracked `source` variable, so
starting an export while a stream is active yields two simultaneously
connected sources. -/
theorem playback_stream_amended (g : AudioGraph) (h : graphInv g) :
    graphInv (createAudioSource g) ∧
    (exportVideoConnectSource g).connected.length = g.connected.length + 1 ∧
    (exportVideoConnectSource g).current = g.current ∧
    (g.connected ≠ [] →
      ¬ (exportVideoConnectSource g).connected.length ≤ 1) := by
  obtain ⟨conn, nid, cur⟩ := g
  obtain ⟨hlen, hcur⟩ := h
  refine ⟨?_, by simp [exportVideoConnectSource], rfl, ?_⟩
  · cases cur with
    | none =>
      have hconn : conn = [] := by
        cases conn with
        | nil => rfl
        | cons a t => exact absurd (hcur a (by simp)) (by simp)
      subst hconn
      simp [createAudioSource, graphInv]
    | some s0 =>
      have hconn : conn.erase s0 = [] := by
        cases conn with
        | nil => rfl
        | cons a t =>
          have ha : a = s0 := by
            have hmem := hcur a (by simp)
            simp only at hmem
            exact (Option.some.inj hmem).symm
          subst ha
          have ht : t = [] := by
            have : t.length = 0 := by simpa using hlen
            exact List.length_eq_zero.mp this
          subst ht
          simp
      simp [createAudioSource, graphInv, hconn]
  · intro hne
    have hpos : 0 < conn.length := List.length_pos.mpr hne
    simp only [exportVideoConnectSource, List.length_append, List.length_cons,
      List.length_nil]
    omega

/-- Witness for C9 at the one-playing-source graph. -/
theorem playback_stream_witness :
    graphInv playingGraph ∧
    (graphInv (createAudioSource playingGraph) ∧
     (exportVideoConnectSource playingGraph).connected.length
       = playingGraph.connected.length + 1 ∧
     (exportVideoConnectSource playingGraph).current = playingGraph.current ∧
     (playingGraph.connected ≠ [] →
       ¬ (exportVideoConnectSource playingGraph).connected.length ≤ 1)) :=
  ⟨by decide, playback_stream_amended playingGraph (by decide)⟩

/-! ## Claim C5: which sampling coordinate the influence warps -/

/-- A spectrum snapshot with a single full-scale magnitude in bin 0. -/
def spikeData : Fin 64 → ℝ := fun i => if i = 0 then 1 else 0

/-- At the flipped-coordinate origin, the spike snapshot produces the
aggregate influence `1 * 0.3 * (1 - smoothstep 0 0.1 0) = 0.3`. -/
lemma audioInfluence_spike : audioInfluence spikeData 1 = 0.3 := by
  have hs : audioInfluence spikeData 1
      = spikeData 0 * 0.3 * (1 - smoothstep 0 0.1 |(((0 : Fin 64) : ℕ) : ℝ) / 64 - (1 - 1)|) := by
    rw [audioInfluence]
    apply Finset.sum_eq_single
    · intro b _ hb
      simp [spikeData, hb]
    · intro h
      exact absurd (Finset.mem_univ _) h
  rw [hs]
  norm_num [spikeData, smoothstep, glslClamp]

/-- A horizontal texture coordinate chosen so that the sine argument of
the wave term becomes exactly π/2 under the spike snapshot. -/
noncomputable def probeX : ℝ := (Real.pi / 2 - 3 / 2) / 30

/-- C5 counterexample: at the concrete input (spike snapshot, coordinate
`(probeX, 1)`) the aggregate influence is nonzero and actively displaces
the sampling coordinate, yet the HORIZONTAL component of the distorted
coordinate is exactly the original `probeX` — only the vertical component
moves.  The claim that the influence "warps the horizontal sampling
coordinate" is false of the shader: `distortedCoord.y` is warped,
`distortedCoord.x` never is. -/
theorem horizontal_warp_counterexample :
    audioInfluence spikeData 1 ≠ 0 ∧
    (distortedCoord spikeData probeX 1).1 = probeX ∧
    (distortedCoord spikeData probeX 1).2 ≠ 1 := by
  have hinf := audioInfluence_spike
  refine ⟨by rw [hinf]; norm_num, rfl, ?_⟩
  have harg : probeX * 30 + audioInfluence spikeData 1 * 5 = Real.pi / 2 := by
    rw [hinf, probeX, div_mul_cancel₀ _ (by norm_num : (30:ℝ) ≠ 0)]
    norm_num
  simp only [distortedCoord]
  rw [waveTerm, harg, Real.sin_pi_div_two, hinf]
  norm_num

/-- C5 amended: the aggregate audio-influence scalar warps the VERTICAL
sampling coordinate by a bounded sinusoidal offset — phase
`x * 30 + influence * 5` (depending on horizontal position and on the
influence), amplitude factor 0.005, total offset bounded by
`0.005 * |influence|` — while the horizontal coordinate is passed through
unchanged; and it additively tints the sampled color toward the fixed
accent hue `(0.2, 0.4, 1.0)` scaled by `0.5 * influence`. -/
theorem influence_warp_amended (uAudioData : Fin 64 → ℝ)
    (tex : ℝ × ℝ → ℝ × ℝ × ℝ) (x y : ℝ) :
    (distortedCoord uAudioData x y).1 = x ∧
    (distortedCoord uAudioData x y).2
      = y - Real.sin (x * 30 + audioInfluence uAudioData y * 5) * 0.005
            * audioInfluence uAudioData y ∧
    |(distortedCoord uAudioData x y).2 - y| ≤ 0.005 * |audioInfluence uAudioData y| ∧
    shadedColor tex uAudioData x y
      = ((tex (distortedCoord uAudioData x y)).1
           + 0.2 * (audioInfluence uAudioData y * 0.5),
         (tex (distortedCoord uAudioData x y)).2.1
           + 0.4 * (audioInfluence uAudioData y * 0.5),
         (tex (distortedCoord uAudioData x y)).2.2
           + 1.0 * (audioInfluence uAudioData y * 0.5)) := by
  refine ⟨rfl, rfl, ?_, rfl⟩
  have hshape : (distortedCoord uAudioData x y).2 - y
      = -(waveTerm uAudioData x y * audioInfluence uAudioData y) := by
    simp only [distortedCoord]
    ring
  rw [hshape, abs_neg, abs_mul]
  apply mul_le_mul_of_nonneg_right _ (abs_nonneg _)
  rw [waveTerm, abs_mul]
  have h1 : |Real.sin (x * 30 + audioInfluence uAudioData y * 5)| ≤ 1 :=
    Real.abs_sin_le_one _
  calc |Real.sin (x * 30 + audioInfluence uAudioData y * 5)| * |(0.005 : ℝ)|
      ≤ 1 * |(0.005 : ℝ)| := mul_le_mul_of_nonneg_right h1 (abs_nonneg _)
    _ = 0.005 := by norm_num

/-! ## Claim C6: the taper of the waveform displacement -/

/-- C6 counterexample: at frame size 800×600 (the 4:3 aspect ratio of the
specification's own end-to-end scenario), the taper at the bottom-edge
index `numSections` is 1/2, not 0, and the taper at the vertical-center
index 20 is smaller than at index 27 — the window neither vanishes at the
bottom edge nor attains its maximum at the vertical center, refuting the
claim's "for every frame size". -/
theorem taper_counterexample :
    verticalFactor 800 600 numSections = 1/2 ∧
    verticalFactor 800 600 20 < verticalFactor 800 600 27 := by
  have h40 : verticalFactor 800 600 numSections = 1/2 := by
    rw [verticalFactor, sectionX, sectionHeight, abs_of_nonneg] <;> norm_num [numSections]
  have h20 : verticalFactor 800 600 20 = 3/4 := by
    rw [verticalFactor, sectionX, sectionHeight, abs_of_nonpos] <;> norm_num [numSections]
  have h27 : verticalFactor 800 600 27 = 79/80 := by
    rw [verticalFactor, sectionX, sectionHeight, abs_of_nonneg] <;> norm_num [numSections]
  rw [h40, h20, h27]
  norm_num

/-- C6 amended: the displacement is `width * 0.25 * magnitude(i) *
verticalFactor(i)`, but the taper normalizes the section abscissa by the
frame WIDTH while the abscissa ranges over `[0, height]`:
`verticalFactor w h i = 1 - |i·h/(numSections·w) - 1/2| · 2`.  The
triangular window in the vertical coordinate claimed by the spec (maximum
at the vertical center, zero at top and bottom edges, mirror symmetric)
is recovered exactly in the square case `h = w`. -/
theorem taper_amended (w h : ℚ) (a : List Nat) (i : ℕ) (hw : w ≠ 0)
    (hi : i ≤ numSections) :
    verticalFactor w h i = 1 - |(i : ℚ) * h / ((numSections : ℕ) * w) - 1/2| * 2 ∧
    waveAmplitude a w h i
      = (audioValue a i).map (fun m => w / 4 * m * verticalFactor w h i) ∧
    (h = w →
      verticalFactor w h i = 1 - |(i : ℚ) / (numSections : ℕ) - 1/2| * 2 ∧
      verticalFactor w h 0 = 0 ∧
      verticalFactor w h numSections = 0 ∧
      verticalFactor w h 20 = 1 ∧
      verticalFactor w h (numSections - i) = verticalFactor w h i) := by
  have h40 : ((numSections : ℕ) : ℚ) ≠ 0 := by norm_num [numSections]
  refine ⟨?_, ?_, ?_⟩
  · have harg : (i : ℚ) * (h / (numSections : ℕ)) / w - 0.5
        = (i : ℚ) * h / ((numSections : ℕ) * w) - 1/2 := by
      rw [← mul_div_assoc, div_div]
      norm_num
    rw [verticalFactor, sectionX, sectionHeight, harg]
  · rcases hav : audioValue a i with _ | v
    · simp [waveAmplitude, hav]
    · simp only [waveAmplitude, hav, Option.map_some']
      congr 1
      ring
  · intro hsq
    subst hsq
    refine ⟨verticalFactor_square h hw i, ?_, ?_, ?_, ?_⟩
    · rw [verticalFactor_square h hw 0, abs_of_nonpos] <;> norm_num [numSections]
    · rw [verticalFactor_square h hw numSections, abs_of_nonneg] <;> norm_num [numSections]
    · rw [verticalFactor_square h hw 20]
      norm_num [numSections]
    · rw [verticalFactor_square h hw (numSections - i), verticalFactor_square h hw i]
      rw [Nat.cast_sub hi]
      rw [show (((numSections : ℕ) : ℚ) - i) / ((numSections : ℕ) : ℚ) - 1/2
            = -((i : ℚ) / ((numSections : ℕ) : ℚ) - 1/2) by
        field_simp
        ring]
      rw [abs_neg]

/-- Witness for C6 at a concrete square frame, snapshot and section. -/
theorem taper_amended_witness :
    (800 : ℚ) ≠ 0 ∧ 10 ≤ numSections ∧
    (verticalFactor 800 800 10 = 1 - |(10 : ℚ) * 800 / ((numSections : ℕ) * 800) - 1/2| * 2 ∧
     waveAmplitude (List.replicate 64 128) 800 800 10
       = (audioValue (List.replicate 64 128) 10).map
           (fun m => 800 / 4 * m * verticalFactor 800 800 10) ∧
     ((800 : ℚ) = 800 →
       verticalFactor 800 800 10 = 1 - |(10 : ℚ) / (numSections : ℕ) - 1/2| * 2 ∧
       verticalFactor 800 800 0 = 0 ∧
       verticalFactor 800 800 numSections = 0 ∧
       verticalFactor 800 800 20 = 1 ∧
       verticalFactor 800 800 (numSections - 10) = verticalFactor 800 800 10)) :=
  ⟨by norm_num, by norm_num [numSections],
   taper_amended 800 800 (List.replicate 64 128) 10 (by norm_num) (by norm_num [numSections])⟩

/-! ## Claim C7: bounds of the nearest-index lookup -/

/-- C7 counterexample: at the loop's final section index
`i = numSections` and snapshot length 64 (the analyser's bin count), the
lookup `floor(i / numSections * len)` equals 64 — not a valid index into
the snapshot — and the typed-array read yields `undefined` (`none`), so
the overlay loop does read outside the snapshot array. -/
theorem overlay_index_counterexample :
    dataIndex numSections 64 = 64 ∧
    ¬ dataIndex numSections 64 < 64 ∧
    uint8Get zeroBytes (dataIndex numSections 64) = none := by
  have h := dataIndex_numSections 64
  refine ⟨h, by omega, ?_⟩
  apply uint8Get_oob
  rw [h]
  simp [zeroBytes]

/-- C7 amended: for every nonempty snapshot and every section index
`i < numSections` the lookup is a valid in-bounds index; at the loop's
final index `i = numSections` the lookup equals the snapshot length and
the read yields `undefined` (JavaScript then propagates `NaN`), so the
out-of-range access happens exactly at that one boundary iteration. -/
theorem overlay_index_amended (len i : ℕ) (hlen : 1 ≤ len) (hi : i < numSections) :
    0 ≤ dataIndex i len ∧
    dataIndex i len < len ∧
    dataIndex numSections len = len ∧
    uint8Get (List.replicate len 0) (dataIndex numSections len) = none := by
  refine ⟨dataIndex_nonneg i len, dataIndex_lt i len hlen hi,
    dataIndex_numSections len, ?_⟩
  rw [dataIndex_numSections]
  apply uint8Get_oob
  simp

/-- Witness for C7 at snapshot length 64 and section index 39. -/
theorem overlay_index_witness :
    1 ≤ 64 ∧ 39 < numSections ∧
    (0 ≤ dataIndex 39 64 ∧
     dataIndex 39 64 < 64 ∧
     dataIndex numSections 64 = 64 ∧
     uint8Get (List.replicate 64 0) (dataIndex numSections 64) = none) :=
  ⟨by norm_num, by norm_num [numSections],
   overlay_index_amended 64 39 (by norm_num) (by norm_num [numSections])⟩
